import Mathlib

/-!
Verification of the Transformer model definition library
(`transformer/models/transformer.py`, `transformer/models/layers.py`,
`nn/transformer.py`) against its design specification.

The Python modules are shallowly embedded:

* token-id tensors of shape (batch, length) become `List (List ℕ)`;
* boolean masks of shape (batch, q_len, k_len) become `List (List (List Bool))`;
* hidden-state tensors of shape (batch, length, d_model) become
  `List (List V)` for an abstract per-position vector type `V`
  (instantiated at `ℝ` for concrete runs);
* the numeric primitives supplied by the external framework
  (embedding lookup, positional encoding, dropout, the attention and
  feed-forward sublayers, the output projection) are parameter functions
  stored in the module objects, exactly as the modules delegate to them;
* a method body that can raise returns `Except PyError _`; Python attribute
  resolution against the namespace written by `__init__` is explicit
  wherever the source reads an attribute that `__init__` did not assign.
-/

/-- Python exceptions raised by the embedded code: `attributeError cls attr`
for an attribute lookup that misses the object's namespace,
`typeError` for a call with the wrong number of arguments, and
`runtimeError` for a shape failure such as an impossible `view`. -/
inductive PyError where
  | attributeError (cls attr : String)
  | typeError (msg : String)
  | runtimeError (msg : String)
  deriving Repr, DecidableEq

/-- A batch of token-id sequences, shape (batch, length). -/
abbrev Tensor2 : Type := List (List ℕ)

/-- A boolean attention mask, shape (batch, q_len, k_len). -/
abbrev Mask3 : Type := List (List (List Bool))

/-- A batch of hidden states, shape (batch, length) of per-position
vectors drawn from `V`. -/
abbrev Hidden (V : Type) : Type := List (List V)

/-- The expression `t.size(1)`: the second dimension of a (batch, length) tensor; all rows
of a tensor have equal length, so it is the length of the first row. -/
def size1 (t : Tensor2) : ℕ :=
  match t with
  | [] => 0
  | row :: _ => row.length

/-- Elementwise scalar multiplication of a hidden-state tensor,
`tensor * scalar` in the source; `S` is the external framework's scalar
type. -/
def smulT {S V : Type} [SMul S V] (c : S) (t : Hidden V) : Hidden V :=
  t.map (fun row => row.map (fun v => c • v))

/-- Elementwise addition of two hidden-state tensors of equal shape. -/
def addT {V : Type} [Add V] (a b : Hidden V) : Hidden V :=
  List.zipWith (fun r s => List.zipWith (fun x y => x + y) r s) a b

/-- Elementwise `|` of two boolean (batch, L, L) masks, as in
`get_attn_pad_mask(...) | get_subsequent_mask(...)`. -/
def orMask3 (a b : Mask3) : Mask3 :=
  List.zipWith (fun p q => List.zipWith (fun r s => List.zipWith or r s) p q) a b

/-- Modelled from the spec: `get_attn_pad_mask` lives in
`transformer/models/mask.py`, which is not among the shown sources.  Per the
spec it produces `pad_mask[b, j] = (seq[b, j] == pad_id)` broadcast across the
query dimension to shape (batch, L, L). -/
def get_attn_pad_mask (seq : Tensor2) (pad_id : ℕ) : Mask3 :=
  seq.map (fun row => List.replicate row.length (row.map (fun tok => tok == pad_id)))

/-- Modelled from the spec: `get_subsequent_mask` lives in
`transformer/models/mask.py`, which is not among the shown sources.  Per the
spec it produces the strictly-upper-triangular mask
`subsequent_mask[i, j] = (j > i)` of size (L, L), shared across the batch. -/
def get_subsequent_mask (seq : Tensor2) : Mask3 :=
  seq.map (fun row =>
    (List.range row.length).map (fun i =>
      (List.range row.length).map (fun j => decide (i < j))))

/-- Modelled from the spec: `get_pad_mask` lives in
`transformer/models/mask.py`, which is not among the shown sources.  Per the
spec the masking component "computes boolean masks marking padding positions";
this variant takes the per-batch valid lengths and marks the trailing
positions.  It only inspects the row structure of its tensor argument, so it
is generic in the element type. -/
def get_pad_mask {β : Type} (seq : List (List β)) (lengths : Option (List ℕ)) :
    List (List Bool) :=
  match lengths with
  | some ls =>
      List.zipWith (fun (row : List β) len =>
        (List.range row.length).map (fun j => decide (len ≤ j))) seq ls
  | none => seq.map (fun row => row.map (fun _ => false))

/-- The chain `.squeeze(-1).unsqueeze(1).expand(-1, L, -1)`: broadcast a (batch, k_len)
mask across the query dimension to shape (batch, L, k_len). -/
def expandPadMask (pm : List (List Bool)) (L : ℕ) : Mask3 :=
  pm.map (fun row => List.replicate L row)

/-! ### `transformer/models/layers.py` — encoder and decoder layers

The sublayers (`AddNorm(MultiHeadAttention(...))`,
`AddNorm(PoswiseFeedForwardNet(...))`) come from
`transformer/models/sublayers.py`, which is not among the shown sources; per
the spec an attention sublayer maps (query, key, value, mask) to the
transformed hidden state plus an attention-weight tensor (of abstract type
`A`), and a feed-forward sublayer maps hidden state to hidden state.  They are
carried as parameter functions. -/

/-- A value stored in a layer object's namespace: an attention sublayer or a
feed-forward sublayer. -/
inductive Sublayer (V A : Type) where
  | attnSub (f : Hidden V → Hidden V → Hidden V → Option Mask3 → Hidden V × A)
  | ffSub (f : Hidden V → Hidden V)

/-- The Python attribute namespace of a layer object: the name→value map
written by `__init__` via `self.<name> = <value>`. -/
abbrev PyNamespace (V A : Type) : Type := List (String × Sublayer V A)

/-- Reading `self.<name>` on a layer object: resolve against the namespace written by
`__init__`; a missing name raises `AttributeError`. -/
def getattrNS {V A : Type} (cls : String) (ns : PyNamespace V A) (name : String) :
    Except PyError (Sublayer V A) :=
  match ns.lookup name with
  | some v => Except.ok v
  | none => Except.error (PyError.attributeError cls name)

/-- Call a namespace value with the four arguments of an attention sublayer;
calling a feed-forward sublayer this way is an arity error. -/
def callAttnSub {V A : Type} (s : Sublayer V A) (q k v : Hidden V)
    (mask : Option Mask3) : Except PyError (Hidden V × A) :=
  match s with
  | Sublayer.attnSub f => Except.ok (f q k v mask)
  | Sublayer.ffSub _ => Except.error (PyError.typeError "forward() takes 2 positional arguments but 5 were given")

/-- Call a namespace value with the single argument of a feed-forward
sublayer; calling an attention sublayer this way is an arity error. -/
def callFFSub {V A : Type} (s : Sublayer V A) (x : Hidden V) :
    Except PyError (Hidden V) :=
  match s with
  | Sublayer.ffSub f => Except.ok (f x)
  | Sublayer.attnSub _ => Except.error (PyError.typeError "forward() missing 3 required positional arguments")

namespace TransformerDecoderLayer

/-- Source `TransformerDecoderLayer.__init__`: writes exactly the attributes
`self_attention`, `encoder_attention` and `feed_forward` into the object's
namespace (`self.self_attention = AddNorm(MultiHeadAttention(...), d_model)`,
`self.encoder_attention = AddNorm(MultiHeadAttention(...), d_model)`,
`self.feed_forward = AddNorm(PoswiseFeedForwardNet(...), d_model)`). -/
def init {V A : Type}
    (selfAttn encAttn : Hidden V → Hidden V → Hidden V → Option Mask3 → Hidden V × A)
    (ffn : Hidden V → Hidden V) : PyNamespace V A :=
  [("self_attention", Sublayer.attnSub selfAttn),
   ("encoder_attention", Sublayer.attnSub encAttn),
   ("feed_forward", Sublayer.ffSub ffn)]

/-- Source `TransformerDecoderLayer.forward`, line for line:
`output, self_attn = self.self_attention(inputs, inputs, inputs, self_attn_mask)`;
`output, memory_attn = self.memory_attention(output, memory, memory, memory_mask)`;
`output = self.feed_forward(output)`; `return output, self_attn, memory_attn`.
Each `self.<name>` resolves against the namespace written by `__init__`. -/
def forward {V A : Type} (l : PyNamespace V A) (inputs memory : Hidden V)
    (self_attn_mask memory_mask : Option Mask3) :
    Except PyError (Hidden V × A × A) := do
  let sa ← getattrNS "TransformerDecoderLayer" l "self_attention"
  let (output, self_attn) ← callAttnSub sa inputs inputs inputs self_attn_mask
  let ma ← getattrNS "TransformerDecoderLayer" l "memory_attention"
  let (output, memory_attn) ← callAttnSub ma output memory memory memory_mask
  let ff ← getattrNS "TransformerDecoderLayer" l "feed_forward"
  let output ← callFFSub ff output
  Except.ok (output, self_attn, memory_attn)

end TransformerDecoderLayer

/-- Source `TransformerEncoderLayer.__init__` writes `self_attention` and
`feed_forward`, and `forward` reads exactly those two names, so every lookup
resolves; the object is carried as a plain record of the assigned values. -/
structure EncLayer (V A : Type) where
  self_attention : Hidden V → Hidden V → Hidden V → Option Mask3 → Hidden V × A
  feed_forward : Hidden V → Hidden V

namespace TransformerEncoderLayer

/-- Source `TransformerEncoderLayer.forward`:
`output, attn = self.self_attention(inputs, inputs, inputs, self_attn_mask)`;
`output = self.feed_forward(output)`; `return output, attn`. -/
def forward {V A : Type} (l : EncLayer V A) (inputs : Hidden V)
    (self_attn_mask : Option Mask3) : Hidden V × A :=
  let (output, attn) := l.self_attention inputs inputs inputs self_attn_mask
  (l.feed_forward output, attn)

end TransformerEncoderLayer

/-! ### `transformer/models/transformer.py` — encoder stack, decoder stack,
top-level model

`Embedding`, `PositionalEncoding` (from `transformer/models/embeddings.py`)
and `Linear` (from `transformer/models/modules.py`) are not among the shown
sources; per the spec they are thin parameterized lookup/affine transforms and
are carried as parameter functions on the module objects. -/

/-- The attributes `TransformerEncoder.__init__` assigns.  Every name read by
`TransformerEncoder.forward` is among them, so the object is a plain record. -/
structure EncoderObj (S V A : Type) where
  d_model : ℕ
  num_layers : ℕ
  num_heads : ℕ
  pad_id : ℕ
  embedding : Tensor2 → Hidden V
  pos_encoding : Tensor2 → Hidden V
  input_dropout : Hidden V → Hidden V
  layers : List (EncLayer V A)
  logit_scale : S

/-- The attributes `TransformerDecoder.__init__` assigns.  Every name read by
`TransformerDecoder.forward` is among them, so the object is a plain record.
The decoder calls `self.pos_encoding(targets.size(1))`, so its positional
encoding takes a length. -/
structure DecoderObj (S V A : Type) where
  d_model : ℕ
  num_layers : ℕ
  num_heads : ℕ
  pad_id : ℕ
  embedding : Tensor2 → Hidden V
  pos_encoding : ℕ → Hidden V
  input_dropout : Hidden V → Hidden V
  layers : List (PyNamespace V A)
  logit_scale : S

namespace TransformerEncoder

/-- Source `TransformerEncoder.__init__`: stores the hyperparameters, the framework
primitives, `num_layers` independently parameterized layers built by the list
comprehension, and `self.logit_scale = (d_model ** -0.5)`; `powNegHalf` is
the external framework's float power at exponent `-0.5` (for exact real
scalars it is `fun d => (d : ℝ) ^ (-(1 / 2) : ℝ)`). -/
def init {S V A : Type} (powNegHalf : ℕ → S) (d_model num_layers num_heads pad_id : ℕ)
    (embedding : Tensor2 → Hidden V) (pos_encoding : Tensor2 → Hidden V)
    (input_dropout : Hidden V → Hidden V) (layerMk : ℕ → EncLayer V A) :
    EncoderObj S V A :=
  { d_model := d_model, num_layers := num_layers, num_heads := num_heads,
    pad_id := pad_id, embedding := embedding, pos_encoding := pos_encoding,
    input_dropout := input_dropout,
    layers := (List.range num_layers).map layerMk,
    logit_scale := powNegHalf d_model }

/-- The layer loop of `TransformerEncoder.forward`: apply each layer in order
to the running hidden state, appending each layer's attention weights. -/
def runLayers {V A : Type} (layers : List (EncLayer V A)) (output : Hidden V)
    (self_attn_mask : Mask3) : Hidden V × List A :=
  match layers with
  | [] => (output, [])
  | l :: rest =>
      let (out, attn) := TransformerEncoderLayer.forward l output (some self_attn_mask)
      let (finalOut, attns) := runLayers rest out self_attn_mask
      (finalOut, attn :: attns)

/-- Source `TransformerEncoder.forward`:
`output = self.input_dropout(self.embedding(inputs) * self.logit_scale + self.pos_encoding(inputs))`;
`self_attn_mask = get_pad_mask(inputs, input_lengths).squeeze(-1).unsqueeze(1).expand(-1, length, -1)`;
then the layer loop collecting per-layer attention weights. -/
def forward {S V A : Type} [SMul S V] [Add V] (s : EncoderObj S V A)
    (inputs : Tensor2) (input_lengths : Option (List ℕ)) :
    Hidden V × List A :=
  let output := s.input_dropout
    (addT (smulT s.logit_scale (s.embedding inputs)) (s.pos_encoding inputs))
  let length := size1 inputs
  let self_attn_mask := expandPadMask (get_pad_mask inputs input_lengths) length
  runLayers s.layers output self_attn_mask

end TransformerEncoder

namespace TransformerDecoder

/-- Source `TransformerDecoder.__init__`: stores the hyperparameters, the framework
primitives, `num_layers` independently parameterized decoder layers, and
`self.logit_scale = (d_model ** -0.5)`, with `powNegHalf` the external
framework's float power at exponent `-0.5` as for the encoder. -/
def init {S V A : Type} (powNegHalf : ℕ → S) (d_model num_layers num_heads pad_id : ℕ)
    (embedding : Tensor2 → Hidden V) (pos_encoding : ℕ → Hidden V)
    (input_dropout : Hidden V → Hidden V) (layerMk : ℕ → PyNamespace V A) :
    DecoderObj S V A :=
  { d_model := d_model, num_layers := num_layers, num_heads := num_heads,
    pad_id := pad_id, embedding := embedding, pos_encoding := pos_encoding,
    input_dropout := input_dropout,
    layers := (List.range num_layers).map layerMk,
    logit_scale := powNegHalf d_model }

/-- The decoder self-attention mask computed by `TransformerDecoder.forward`:
`get_attn_pad_mask(targets, self.pad_id) | get_subsequent_mask(targets)`. -/
def selfAttnMask (targets : Tensor2) (pad_id : ℕ) : Mask3 :=
  orMask3 (get_attn_pad_mask targets pad_id) (get_subsequent_mask targets)

/-- The layer loop of `TransformerDecoder.forward`: each iteration calls a
decoder layer (which can raise) and appends its self- and memory-attention
weights. -/
def runLayers {V A : Type} (layers : List (PyNamespace V A)) (output : Hidden V)
    (memory : Hidden V) (self_attn_mask memory_mask : Mask3) :
    Except PyError (Hidden V × List A × List A) := do
  match layers with
  | [] => Except.ok (output, [], [])
  | l :: rest => do
      let (out, self_attn, memory_attn) ←
        TransformerDecoderLayer.forward l output memory (some self_attn_mask) (some memory_mask)
      let (finalOut, sas, mas) ← runLayers rest out memory self_attn_mask memory_mask
      Except.ok (finalOut, self_attn :: sas, memory_attn :: mas)

/-- Source `TransformerDecoder.forward`:
`self_attn_mask = get_attn_pad_mask(targets, self.pad_id) | get_subsequent_mask(targets)`;
`memory_mask = get_pad_mask(memory, input_lengths).squeeze(-1).unsqueeze(1).expand(-1, targets.size(1), -1)`;
`output = self.input_dropout(self.embedding(targets) * self.logit_scale + self.pos_encoding(targets.size(1)))`;
then the layer loop. -/
def forward {S V A : Type} [SMul S V] [Add V] (s : DecoderObj S V A)
    (targets : Tensor2) (input_lengths : Option (List ℕ)) (memory : Hidden V) :
    Except PyError (Hidden V × List A × List A) :=
  let self_attn_mask := selfAttnMask targets s.pad_id
  let memory_mask := expandPadMask (get_pad_mask memory input_lengths) (size1 targets)
  let output := s.input_dropout
    (addT (smulT s.logit_scale (s.embedding targets)) (s.pos_encoding (size1 targets)))
  runLayers s.layers output memory self_attn_mask memory_mask

end TransformerDecoder

/-- The result of `Transformer.forward`: the logits alone, or — when
`return_attns` is true — the logits together with the encoder self-attention,
decoder self-attention and memory-attention weight sequences. -/
inductive ForwardResult (V A : Type) where
  | logits (output : Hidden V)
  | withAttns (output : Hidden V) (encoder_self_attns decoder_self_attns memory_attns : List A)
  deriving Repr

/-- The attributes of a `Transformer` object.  `__init__` assigns `pad_id`,
`encoder`, `decoder` and `generator`; it never assigns `eos_id`, recorded here
as an `Option` holding the value only if some later attribute assignment by a
caller supplied it. -/
structure TransformerObj (S V A : Type) where
  pad_id : ℕ
  eos_id : Option ℕ
  encoder : EncoderObj S V A
  decoder : DecoderObj S V A
  generator : Hidden V → Hidden V

namespace Transformer

/-- Source `Transformer.__init__`: assigns `self.pad_id`, `self.encoder`,
`self.decoder` and `self.generator`; no statement assigns `self.eos_id`. -/
def init {S V A : Type} (pad_id : ℕ)
    (encoder : EncoderObj S V A) (decoder : DecoderObj S V A)
    (generator : Hidden V → Hidden V) : TransformerObj S V A :=
  { pad_id := pad_id, eos_id := none, encoder := encoder, decoder := decoder,
    generator := generator }

/-- Reading `self.eos_id` in `Transformer.forward`: resolves only if the attribute was
ever assigned; a default-constructed object raises `AttributeError`. -/
def getEos {S V A : Type} (s : TransformerObj S V A) : Except PyError ℕ :=
  match s.eos_id with
  | some e => Except.ok e
  | none => Except.error (PyError.attributeError "Transformer" "eos_id")

/-- The expression `targets.size(0)`: `targets` is `Optional`; on `None` the attribute lookup
`size` raises `AttributeError`. -/
def targetsSize0 (targets : Option Tensor2) : Except PyError (Tensor2 × ℕ) :=
  match targets with
  | some t => Except.ok (t, t.length)
  | none => Except.error (PyError.attributeError "NoneType" "size")

/-- The expression `targets[targets != eos_id].view(batch_size, -1)`: boolean-mask selection
flattens the kept elements in row-major order, and `view` regroups them into
`batch_size` rows, raising `RuntimeError` when the element count is not a
multiple of `batch_size`. -/
def stripEos (t : Tensor2) (eos : ℕ) (batch_size : ℕ) : Except PyError Tensor2 :=
  let flat := (t.map (fun row => row.filter (fun tok => tok ≠ eos))).flatten
  if batch_size ≠ 0 ∧ flat.length % batch_size = 0 then
    let k := flat.length / batch_size
    Except.ok ((List.range batch_size).map (fun i => ((flat.drop (i * k)).take k)))
  else
    Except.error (PyError.runtimeError "shape invalid for input of size")

/-- Source `Transformer.forward`, line for line:
`batch_size = targets.size(0)`;
`targets = targets[targets != self.eos_id].view(batch_size, -1)`;
`memory, encoder_self_attns = self.encoder(inputs, input_lengths)`;
`output, decoder_self_attns, memory_attns = self.decoder(targets, input_lengths, memory)`;
`output = self.generator(output)`;
`return` the four-tuple when `return_attns` else the logits alone. -/
def forward {S V A : Type} [SMul S V] [Add V] (s : TransformerObj S V A)
    (inputs : Tensor2) (input_lengths : List ℕ) (targets : Option Tensor2)
    (return_attns : Bool) : Except PyError (ForwardResult V A) := do
  let (t, batch_size) ← targetsSize0 targets
  let eos ← getEos s
  let stripped ← stripEos t eos batch_size
  let (memory, encoder_self_attns) := TransformerEncoder.forward s.encoder inputs (some input_lengths)
  let (output, decoder_self_attns, memory_attns) ←
    TransformerDecoder.forward s.decoder stripped (some input_lengths) memory
  let output := s.generator output
  if return_attns then
    Except.ok (ForwardResult.withAttns output encoder_self_attns decoder_self_attns memory_attns)
  else
    Except.ok (ForwardResult.logits output)

end Transformer

/-! ### `nn/transformer.py` — the simpler reference module

Its `TransformerEncoder.forward`, `TransformerDecoder.forward` and
`PositionalEncoding.forward` bodies are `pass`: they declare no parameters
besides `self` and return `None`.  A Python call checks the argument count
against the declared parameters, so these methods succeed only on an empty
argument list. -/

/-- A Python value passed around in `nn/transformer.py`: a tensor or `None`. -/
inductive PyVal (τ : Type) where
  | tensor (t : τ)
  | pynone
  deriving Repr, DecidableEq

namespace NNTransformerEncoder

/-- Source `TransformerEncoder.forward(self)` in `nn/transformer.py`: declares no
parameters besides `self` and its body is `pass`, so a call succeeds (with
`None`) only on zero arguments and otherwise raises `TypeError`. -/
def forwardCall {τ : Type} (args : List (PyVal τ)) : Except PyError (PyVal τ) :=
  if args.length = 0 then Except.ok PyVal.pynone
  else Except.error (PyError.typeError "forward() takes 1 positional argument but more were given")

end NNTransformerEncoder

namespace NNTransformerDecoder

/-- Source `TransformerDecoder.forward(self)` in `nn/transformer.py`: same
placeholder shape as the encoder's. -/
def forwardCall {τ : Type} (args : List (PyVal τ)) : Except PyError (PyVal τ) :=
  if args.length = 0 then Except.ok PyVal.pynone
  else Except.error (PyError.typeError "forward() takes 1 positional argument but more were given")

end NNTransformerDecoder

namespace NNPositionalEncoding

/-- Source `PositionalEncoding.forward(self)` in `nn/transformer.py`: same
placeholder shape as the encoder's. -/
def forwardCall {τ : Type} (args : List (PyVal τ)) : Except PyError (PyVal τ) :=
  if args.length = 0 then Except.ok PyVal.pynone
  else Except.error (PyError.typeError "forward() takes 1 positional argument but more were given")

end NNPositionalEncoding

namespace NNTransformer

/-- Source `Transformer.forward` in `nn/transformer.py`:
`encoder_outputs = self.encoder(encoder_inputs)`;
`decoder_outputs = self.decoder(decoder_inputs, encoder_outputs)`;
`result = self.linear_out(decoder_outputs)`; `return result`.
`linear_out` is the framework's `nn.Linear(d_model, num_classes)`. -/
def forward {τ : Type} (linear_out : PyVal τ → PyVal τ)
    (encoder_inputs decoder_inputs : PyVal τ) : Except PyError (PyVal τ) := do
  let encoder_outputs ← NNTransformerEncoder.forwardCall [encoder_inputs]
  let decoder_outputs ← NNTransformerDecoder.forwardCall [decoder_inputs, encoder_outputs]
  Except.ok (linear_out decoder_outputs)

end NNTransformer

/-! ### Concrete instantiations

Runs of the embedded modules on small concrete inputs, with scalars in `ℚ`,
per-position hidden vectors collapsed to `ℚ`, and attention-weight tensors
collapsed to `Unit`.  The framework primitives are simple concrete functions;
the `** -0.5` values chosen (`d_model` 4 and 16) are exactly representable. -/

/-- A concrete attention sublayer: returns the query unchanged with trivial
attention weights. -/
def testAttnSub : Hidden ℚ → Hidden ℚ → Hidden ℚ → Option Mask3 → Hidden ℚ × Unit :=
  fun q _ _ _ => (q, ())

/-- A concrete encoder layer. -/
def testEncLayer : EncLayer ℚ Unit :=
  { self_attention := testAttnSub, feed_forward := fun x => x }

/-- A concrete decoder layer namespace, as written by
`TransformerDecoderLayer.__init__`. -/
def testDecLayer : PyNamespace ℚ Unit :=
  TransformerDecoderLayer.init testAttnSub testAttnSub (fun x => x)

/-- A concrete embedding lookup: token id cast to `ℚ`. -/
def testEmbedding : Tensor2 → Hidden ℚ :=
  fun t => t.map (fun row => row.map (fun tok => (tok : ℚ)))

/-- A concrete positional encoding for the encoder's call style
(`self.pos_encoding(inputs)`). -/
def testPosEncEnc : Tensor2 → Hidden ℚ :=
  fun t => t.map (fun row => row.map (fun _ => (0 : ℚ)))

/-- A concrete positional encoding for the decoder's call style
(`self.pos_encoding(targets.size(1))`). -/
def testPosEncDec : ℕ → Hidden ℚ :=
  fun L => [List.replicate L (0 : ℚ)]

/-- The encoder stack of the spec's end-to-end configuration: `d_model = 16`,
`num_layers = 2`, `num_heads = 2`, `pad_id = 0`; `16 ** -0.5 = 0.25`. -/
def testEncoder16 : EncoderObj ℚ ℚ Unit :=
  TransformerEncoder.init (fun _ => (1 : ℚ) / 4) 16 2 2 0
    testEmbedding testPosEncEnc (fun x => x) (fun _ => testEncLayer)

/-- The decoder stack of the spec's end-to-end configuration. -/
def testDecoder16 : DecoderObj ℚ ℚ Unit :=
  TransformerDecoder.init (fun _ => (1 : ℚ) / 4) 16 2 2 0
    testEmbedding testPosEncDec (fun x => x) (fun _ => testDecLayer)

/-- The spec's end-to-end configuration:
`num_encoder_layers = 2`, `num_decoder_layers = 2`, `d_model = 16`,
`num_heads = 2`. -/
def testModel16 : TransformerObj ℚ ℚ Unit :=
  Transformer.init 0 testEncoder16 testDecoder16 (fun x => x)

/-- A one-layer encoder stack with `d_model = 4`; `4 ** -0.5 = 0.5`. -/
def testEncoder4 : EncoderObj ℚ ℚ Unit :=
  TransformerEncoder.init (fun _ => (1 : ℚ) / 2) 4 1 1 0
    testEmbedding testPosEncEnc (fun x => x) (fun _ => testEncLayer)

/-- A one-layer decoder stack with `d_model = 4`. -/
def testDecoder4 : DecoderObj ℚ ℚ Unit :=
  TransformerDecoder.init (fun _ => (1 : ℚ) / 2) 4 1 1 0
    testEmbedding testPosEncDec (fun x => x) (fun _ => testDecLayer)

/-- A small default-constructed `Transformer` with one layer per stack. -/
def testModel4 : TransformerObj ℚ ℚ Unit :=
  Transformer.init 0 testEncoder4 testDecoder4 (fun x => x)

/-! ### Claim theorems -/

/-- C10: the `targets` parameter of `Transformer.forward` is declared
`Optional`, but the body unconditionally evaluates `targets.size(0)`, so every
call with `targets = None` raises `AttributeError` on the `size` lookup
instead of returning. -/
theorem forward_none_targets_raises {S V A : Type} [SMul S V] [Add V]
    (s : TransformerObj S V A) (inputs : Tensor2) (input_lengths : List ℕ)
    (return_attns : Bool) :
    Transformer.forward s inputs input_lengths none return_attns
      = Except.error (PyError.attributeError "NoneType" "size") := by
  rfl

/-- C1: the top-level forward pass does not strip end-of-sequence markers and
proceed: `__init__` never assigns `eos_id`, so a default-constructed
`Transformer` raises `AttributeError` at the strip line, and even when
`eos_id` is supplied by a later attribute assignment the remainder of the pass
stops in the first decoder layer with `AttributeError` on `memory_attention`
rather than proceeding through decoder and projection. -/
theorem forward_eos_strip_defect :
    Transformer.forward testModel4 [[1, 2]] [2] (some [[5, 3, 2]]) false
      = Except.error (PyError.attributeError "Transformer" "eos_id")
    ∧ Transformer.forward { testModel4 with eos_id := some 2 } [[1, 2]] [2]
        (some [[5, 3, 2]]) false
      = Except.error (PyError.attributeError "TransformerDecoderLayer" "memory_attention") := by
  exact ⟨rfl, rfl⟩

/-- C2: the spec's end-to-end run (two encoder layers, two decoder layers,
`d_model = 16`, `num_heads = 2`, input and target ids of length 5, batch 1)
does not return logits: the forward call raises `AttributeError` on the
uninitialized `eos_id` attribute. -/
theorem end_to_end_forward_raises :
    Transformer.forward testModel16 [[1, 2, 3, 4, 5]] [5]
      (some [[6, 7, 8, 9, 10]]) false
      = Except.error (PyError.attributeError "Transformer" "eos_id") := by
  rfl

/-- C8: no forward call of the top-level `Transformer` produces a result for
either value of the return-attentions flag: with the flag true or false the
call raises `AttributeError` on `eos_id` before reaching the conditional
return, and even with `eos_id` supplied it raises in the first decoder layer,
so neither the logits-with-attentions four-tuple nor the bare logits are ever
returned. -/
theorem return_attns_flag_unreachable :
    Transformer.forward testModel4 [[3]] [1] (some [[4]]) true
      = Except.error (PyError.attributeError "Transformer" "eos_id")
    ∧ Transformer.forward testModel4 [[3]] [1] (some [[4]]) false
      = Except.error (PyError.attributeError "Transformer" "eos_id")
    ∧ Transformer.forward { testModel4 with eos_id := some 9 } [[3]] [1]
        (some [[4]]) true
      = Except.error (PyError.attributeError "TransformerDecoderLayer" "memory_attention") := by
  exact ⟨rfl, rfl, rfl⟩

/-- C9: in `nn/transformer.py` the placeholder `forward` methods of
`TransformerEncoder`, `TransformerDecoder` and `PositionalEncoding` accept no
arguments and return `None`, so `Transformer.forward` — which calls the
encoder with the input tensor — raises `TypeError` on every call and never
returns a result. -/
theorem nn_placeholder_forward_raises {τ : Type} (linear_out : PyVal τ → PyVal τ)
    (encoder_inputs decoder_inputs : PyVal τ) :
    NNTransformer.forward linear_out encoder_inputs decoder_inputs
      = Except.error (PyError.typeError "forward() takes 1 positional argument but more were given")
    ∧ NNTransformerEncoder.forwardCall ([] : List (PyVal τ)) = Except.ok PyVal.pynone
    ∧ NNTransformerDecoder.forwardCall ([] : List (PyVal τ)) = Except.ok PyVal.pynone
    ∧ NNPositionalEncoding.forwardCall ([] : List (PyVal τ)) = Except.ok PyVal.pynone
    ∧ NNPositionalEncoding.forwardCall [encoder_inputs]
      = Except.error (PyError.typeError "forward() takes 1 positional argument but more were given") := by
  exact ⟨rfl, rfl, rfl, rfl, rfl⟩

/-- Entry `(b, i, j)` of a boolean mask, out-of-range positions read as
`false`. -/
def maskAt (m : Mask3) (b i j : ℕ) : Bool :=
  ((m.getD b []).getD i []).getD j false

/-- Token `(b, j)` of an id tensor, out-of-range positions read as `0`. -/
def tokAt (t : Tensor2) (b j : ℕ) : ℕ :=
  (t.getD b []).getD j 0

/-- The decoder self-attention mask has one block per batch row. -/
theorem selfAttnMask_length (targets : Tensor2) (pad_id : ℕ) :
    (TransformerDecoder.selfAttnMask targets pad_id).length = targets.length := by
  simp [TransformerDecoder.selfAttnMask, orMask3, get_attn_pad_mask,
    get_subsequent_mask]

/-- Each block of the decoder self-attention mask is square of side the
target length of its batch row. -/
theorem selfAttnMask_block_shape (targets : Tensor2) (pad_id : ℕ) (b : ℕ)
    (hb : b < targets.length) :
    ((TransformerDecoder.selfAttnMask targets pad_id).getD b []).length
        = (targets.getD b []).length
    ∧ ∀ i, i < (targets.getD b []).length →
        (((TransformerDecoder.selfAttnMask targets pad_id).getD b []).getD i []).length
          = (targets.getD b []).length := by
  have hb' : b < (TransformerDecoder.selfAttnMask targets pad_id).length := by
    rw [selfAttnMask_length]; exact hb
  rw [List.getD_eq_getElem _ _ hb', List.getD_eq_getElem _ _ hb]
  simp only [TransformerDecoder.selfAttnMask, orMask3, get_attn_pad_mask,
    get_subsequent_mask, List.getElem_zipWith, List.getElem_map]
  constructor
  · simp
  · intro i hi
    have hi' : i < (List.zipWith (fun r s => List.zipWith or r s)
        (List.replicate (targets[b].length) (targets[b].map (fun tok => tok == pad_id)))
        ((List.range (targets[b].length)).map (fun i =>
          (List.range (targets[b].length)).map (fun j => decide (i < j))))).length := by
      simpa using hi
    rw [List.getD_eq_getElem _ _ hi']
    simp

/-- C5: the decoder self-attention mask computed by
`TransformerDecoder.forward` is, entry for entry, the logical OR of the
padding mask (`targets[b, j] == pad_id`) and the strictly-upper-triangular
subsequent mask (`j > i`), broadcast to shape (batch, L, L) with L the target
length of the batch row. -/
theorem decoder_self_attn_mask_pad_or_subsequent (targets : Tensor2) (pad_id : ℕ) :
    (TransformerDecoder.selfAttnMask targets pad_id).length = targets.length
    ∧ ∀ b, b < targets.length →
        ((TransformerDecoder.selfAttnMask targets pad_id).getD b []).length
            = (targets.getD b []).length
        ∧ (∀ i, i < (targets.getD b []).length →
            (((TransformerDecoder.selfAttnMask targets pad_id).getD b []).getD i []).length
              = (targets.getD b []).length)
        ∧ ∀ i j, i < (targets.getD b []).length → j < (targets.getD b []).length →
            maskAt (TransformerDecoder.selfAttnMask targets pad_id) b i j
              = ((tokAt targets b j == pad_id) || decide (i < j)) := by
  refine ⟨selfAttnMask_length targets pad_id, fun b hb => ?_⟩
  refine ⟨(selfAttnMask_block_shape targets pad_id b hb).1,
          (selfAttnMask_block_shape targets pad_id b hb).2, ?_⟩
  intro i j hi hj
  have hb' : b < (TransformerDecoder.selfAttnMask targets pad_id).length := by
    rw [selfAttnMask_length]; exact hb
  have hbt : b < targets.length := hb
  have hgb : List.getD targets b [] = targets[b] := List.getD_eq_getElem _ _ hbt
  rw [hgb] at hi hj
  rw [maskAt, tokAt, List.getD_eq_getElem _ _ hb', hgb]
  simp only [TransformerDecoder.selfAttnMask, orMask3, get_attn_pad_mask,
    get_subsequent_mask, List.getElem_zipWith, List.getElem_map]
  have hi' : i < (List.zipWith (fun r s => List.zipWith or r s)
      (List.replicate (targets[b].length) (targets[b].map (fun tok => tok == pad_id)))
      ((List.range (targets[b].length)).map (fun i =>
        (List.range (targets[b].length)).map (fun j => decide (i < j))))).length := by
    simpa using hi
  rw [List.getD_eq_getElem _ _ hi']
  simp only [List.getElem_zipWith, List.getElem_replicate, List.getElem_map,
    List.getElem_range]
  have hj1 : j < (List.zipWith or (targets[b].map (fun tok => tok == pad_id))
      ((List.range (targets[b].length)).map (fun j => decide (i < j)))).length := by
    simpa using hj
  rw [List.getD_eq_getElem _ _ hj1, List.getD_eq_getElem _ _ hj]
  simp

/-- Concrete check of the mask characterization on `targets = [[5, 0, 7]]`,
`pad_id = 0`: entry `(0, 2, 1)` is set by the padding mask alone and entry
`(0, 0, 2)` by the subsequent mask alone. -/
theorem decoder_self_attn_mask_pad_or_subsequent_witness :
    maskAt (TransformerDecoder.selfAttnMask [[5, 0, 7]] 0) 0 2 1 = true
    ∧ maskAt (TransformerDecoder.selfAttnMask [[5, 0, 7]] 0) 0 0 2 = true
    ∧ maskAt (TransformerDecoder.selfAttnMask [[5, 0, 7]] 0) 0 1 0 = false := by
  have h := (decoder_self_attn_mask_pad_or_subsequent [[5, 0, 7]] 0).2 0 (by decide)
  refine ⟨?_, ?_, ?_⟩
  · rw [h.2.2 2 1 (by decide) (by decide)]; decide
  · rw [h.2.2 0 2 (by decide) (by decide)]; decide
  · rw [h.2.2 1 0 (by decide) (by decide)]; decide

/-- The hidden state entering the `i`-th encoder layer: the prologue output
pushed through the first `i` layers. -/
def encStateBefore {V A : Type} (layers : List (EncLayer V A)) (x : Hidden V)
    (m : Mask3) (i : ℕ) : Hidden V :=
  (layers.take i).foldl
    (fun acc l => (TransformerEncoderLayer.forward l acc (some m)).1) x

/-- The encoder layer loop emits one attention-weight tensor per layer. -/
theorem encoder_runLayers_attns_length {V A : Type} (layers : List (EncLayer V A))
    (x : Hidden V) (m : Mask3) :
    (TransformerEncoder.runLayers layers x m).2.length = layers.length := by
  induction layers generalizing x with
  | nil => rfl
  | cons l rest ih => simp [TransformerEncoder.runLayers, ih]

/-- The `i`-th attention-weight tensor emitted by the encoder layer loop is
the one produced by the `i`-th layer, applied to the state left by the first
`i` layers. -/
theorem encoder_runLayers_attns_getD {V A : Type} (layers : List (EncLayer V A))
    (x : Hidden V) (m : Mask3) (i : ℕ) (a₀ : A) (l₀ : EncLayer V A) :
    (TransformerEncoder.runLayers layers x m).2.getD i a₀
      = if i < layers.length then
          (TransformerEncoderLayer.forward (layers.getD i l₀)
            (encStateBefore layers x m i) (some m)).2
        else a₀ := by
  induction layers generalizing x i with
  | nil => simp [TransformerEncoder.runLayers]
  | cons l rest ih =>
      cases i with
      | zero => simp [TransformerEncoder.runLayers, encStateBefore]
      | succ i =>
          have h := ih ((TransformerEncoderLayer.forward l x (some m)).1) i
          simp only [TransformerEncoder.runLayers, List.getD_cons_succ,
            List.length_cons, Nat.succ_lt_succ_iff, List.take_succ_cons,
            encStateBefore, List.foldl_cons] at h ⊢
          exact h

/-- C7: the encoder stack applies its layers sequentially in construction
order — its attention-weight list has exactly `num_layers` entries, the `i`-th
being the attention weights of the `i`-th layer applied after the first `i`
layers — while the decoder stack never returns its attention-weight lists: its
first layer raises `AttributeError` on `memory_attention`. -/
theorem encoder_attns_ordered_and_decoder_raises :
    (∀ (S V A : Type) [SMul S V] [Add V] (s : EncoderObj S V A)
        (inputs : Tensor2) (input_lengths : Option (List ℕ)),
        (TransformerEncoder.forward s inputs input_lengths).2.length = s.layers.length)
    ∧ (∀ (V A : Type) (layers : List (EncLayer V A)) (x : Hidden V) (m : Mask3)
        (i : ℕ) (a₀ : A) (l₀ : EncLayer V A),
        (TransformerEncoder.runLayers layers x m).2.getD i a₀
          = if i < layers.length then
              (TransformerEncoderLayer.forward (layers.getD i l₀)
                (encStateBefore layers x m i) (some m)).2
            else a₀)
    ∧ TransformerDecoder.forward testDecoder4 [[1]] (some [1]) ([[0]] : Hidden ℚ)
        = Except.error (PyError.attributeError "TransformerDecoderLayer" "memory_attention") := by
  refine ⟨?_, ?_, rfl⟩
  · intro S V A i₁ i₂ s inputs input_lengths
    exact encoder_runLayers_attns_length s.layers _ _
  · intro V A layers x m i a₀ l₀
    exact encoder_runLayers_attns_getD layers x m i a₀ l₀

/-- Variant of `Transformer.forward` with the attribute state after the call made
explicit: the body binds only local names (`batch_size`, `targets`, `memory`,
`output`, the attention lists) and never assigns `self.<attr>`, so the
post-call attribute state is, field for field, the attribute state read at
entry. -/
def Transformer.forwardThreaded {S V A : Type} [SMul S V] [Add V]
    (s : TransformerObj S V A) (inputs : Tensor2) (input_lengths : List ℕ)
    (targets : Option Tensor2) (return_attns : Bool) :
    Except PyError (ForwardResult V A) × TransformerObj S V A :=
  (Transformer.forward s inputs input_lengths targets return_attns,
   { pad_id := s.pad_id, eos_id := s.eos_id, encoder := s.encoder,
     decoder := s.decoder, generator := s.generator })

/-- C6: the forward computation is deterministic — a forward call leaves the
module's attribute state unchanged, and a second forward call on the
post-state with the same inputs, input lengths, targets and flag produces
exactly the same outcome as the first. -/
theorem forward_deterministic {S V A : Type} [SMul S V] [Add V]
    (s : TransformerObj S V A) (inputs : Tensor2) (input_lengths : List ℕ)
    (targets : Option Tensor2) (return_attns : Bool) :
    (Transformer.forwardThreaded
        (Transformer.forwardThreaded s inputs input_lengths targets return_attns).2
        inputs input_lengths targets return_attns).1
      = (Transformer.forwardThreaded s inputs input_lengths targets return_attns).1
    ∧ (Transformer.forwardThreaded
        (Transformer.forwardThreaded s inputs input_lengths targets return_attns).2
        inputs input_lengths targets return_attns).2 = s := by
  have hstate :
      (Transformer.forwardThreaded s inputs input_lengths targets return_attns).2 = s := by
    cases s
    rfl
  rw [hstate]
  exact ⟨rfl, hstate⟩

/-- The value of the float power `d_model ** -0.5` stored in `logit_scale`:
it is the reciprocal of `sqrt(d_model)`, not `sqrt(d_model)`. -/
theorem powNegHalf_eq_one_div_sqrt (d : ℕ) :
    (d : ℝ) ^ (-(1 / 2) : ℝ) = 1 / Real.sqrt d := by
  rw [Real.rpow_neg (by positivity), ← Real.sqrt_eq_rpow, one_div]

/-- C3 (amended): with the framework's real-valued power, the encoder and
decoder prologues multiply the embedded input ids by `d_model ** -0.5`, i.e.
they divide the embedding by `sqrt(d_model)`, before adding the positional
encoding and applying dropout, and then run the layer loop on the result. -/
theorem embedding_scaled_by_inverse_sqrt :
    (∀ (V A : Type) [SMul ℝ V] [Add V]
        (d_model num_layers num_heads pad_id : ℕ)
        (embedding : Tensor2 → Hidden V) (pos_encoding : Tensor2 → Hidden V)
        (input_dropout : Hidden V → Hidden V) (layerMk : ℕ → EncLayer V A)
        (inputs : Tensor2) (input_lengths : Option (List ℕ)),
        TransformerEncoder.forward
            (TransformerEncoder.init (fun d => (d : ℝ) ^ (-(1 / 2) : ℝ))
              d_model num_layers num_heads pad_id embedding pos_encoding
              input_dropout layerMk)
            inputs input_lengths
          = TransformerEncoder.runLayers ((List.range num_layers).map layerMk)
              (input_dropout (addT (smulT (1 / Real.sqrt d_model) (embedding inputs))
                (pos_encoding inputs)))
              (expandPadMask (get_pad_mask inputs input_lengths) (size1 inputs)))
    ∧ (∀ (V A : Type) [SMul ℝ V] [Add V]
        (d_model num_layers num_heads pad_id : ℕ)
        (embedding : Tensor2 → Hidden V) (pos_encoding : ℕ → Hidden V)
        (input_dropout : Hidden V → Hidden V) (layerMk : ℕ → PyNamespace V A)
        (targets : Tensor2) (input_lengths : Option (List ℕ)) (memory : Hidden V),
        TransformerDecoder.forward
            (TransformerDecoder.init (fun d => (d : ℝ) ^ (-(1 / 2) : ℝ))
              d_model num_layers num_heads pad_id embedding pos_encoding
              input_dropout layerMk)
            targets input_lengths memory
          = TransformerDecoder.runLayers ((List.range num_layers).map layerMk)
              (input_dropout (addT (smulT (1 / Real.sqrt d_model) (embedding targets))
                (pos_encoding (size1 targets))))
              memory
              (TransformerDecoder.selfAttnMask targets pad_id)
              (expandPadMask (get_pad_mask memory input_lengths) (size1 targets))) := by
  constructor
  · intro V A i₁ i₂ d_model num_layers num_heads pad_id embedding pos_encoding
      input_dropout layerMk inputs input_lengths
    simp only [TransformerEncoder.forward, TransformerEncoder.init,
      powNegHalf_eq_one_div_sqrt]
  · intro V A i₁ i₂ d_model num_layers num_heads pad_id embedding pos_encoding
      input_dropout layerMk targets input_lengths memory
    simp only [TransformerDecoder.forward, TransformerDecoder.init,
      powNegHalf_eq_one_div_sqrt]

/-- C3 (counterexample): on a one-token input with `d_model = 4`, embedding
value `1` and positional encoding `0`, the encoder prologue produces `1/2`
(the embedding times `4 ** -0.5`), not the value `2` that scaling by
`sqrt(d_model)` — as the claim states — would produce. -/
theorem embedding_scale_counterexample :
    (TransformerEncoder.forward
        (TransformerEncoder.init (fun d => (d : ℝ) ^ (-(1 / 2) : ℝ)) 4 0 1 0
          (fun _ => [[(1 : ℝ)]]) (fun _ => [[(0 : ℝ)]]) (fun x => x)
          (fun _ => { self_attention := fun q _ _ _ => (q, ()),
                      feed_forward := fun x => x }))
        [[7]] (some [1])).1
      = [[(1 / 2 : ℝ)]]
    ∧ (TransformerEncoder.forward
        (TransformerEncoder.init (fun d => (d : ℝ) ^ (-(1 / 2) : ℝ)) 4 0 1 0
          (fun _ => [[(1 : ℝ)]]) (fun _ => [[(0 : ℝ)]]) (fun x => x)
          (fun _ => { self_attention := fun q _ _ _ => (q, ()),
                      feed_forward := fun x => x }))
        [[7]] (some [1])).1
      ≠ (fun x => x) (addT (smulT (Real.sqrt 4) [[(1 : ℝ)]]) [[(0 : ℝ)]]) := by
  have h2 : Real.sqrt 4 = 2 := by
    rw [show (4 : ℝ) = 2 ^ 2 by norm_num, Real.sqrt_sq (by norm_num : (0 : ℝ) ≤ 2)]
  have hval : ((4 : ℕ) : ℝ) ^ (-(1 / 2) : ℝ) = 1 / 2 := by
    rw [powNegHalf_eq_one_div_sqrt]
    rw [show ((4 : ℕ) : ℝ) = (4 : ℝ) by norm_num, h2]
  constructor
  · simp only [TransformerEncoder.forward, TransformerEncoder.init,
      TransformerEncoder.runLayers, List.range_zero, List.map_nil,
      addT, smulT, List.map_cons, List.map_nil, List.zipWith_cons_cons,
      List.zipWith_nil_right]
    rw [hval]
    norm_num
  · simp only [TransformerEncoder.forward, TransformerEncoder.init,
      TransformerEncoder.runLayers, List.range_zero, List.map_nil,
      addT, smulT, List.map_cons, List.map_nil, List.zipWith_cons_cons,
      List.zipWith_nil_right]
    rw [hval, h2]
    intro hcontra
    have := List.head_eq_of_cons_eq hcontra
    have := List.head_eq_of_cons_eq this
    norm_num [smul_eq_mul] at this

/-- C4: every forward call of `TransformerDecoderLayer` raises
`AttributeError` when it reads `self.memory_attention`: `__init__` assigned
the cross-attention sublayer to `self.encoder_attention`, so the name
`memory_attention` is absent from the object's namespace, and the layer never
returns a hidden state or attention weights. -/
theorem decoder_layer_forward_raises_memory_attention {V A : Type}
    (selfAttn encAttn : Hidden V → Hidden V → Hidden V → Option Mask3 → Hidden V × A)
    (ffn : Hidden V → Hidden V) (inputs memory : Hidden V)
    (sm mm : Option Mask3) :
    TransformerDecoderLayer.forward (TransformerDecoderLayer.init selfAttn encAttn ffn)
      inputs memory sm mm
      = Except.error (PyError.attributeError "TransformerDecoderLayer" "memory_attention") := by
  rfl
